import Mathlib

/-!
Verification of the log-search MCP server (`log_search_mcp`), shallowly
embedded in Lean 4.  Python strings are modelled as `List Char`, Python
`datetime` values as epoch-second integers, exceptions as `Except`, and
remote effects (SSH command execution, fresh-connection attempts, the
wall clock) as explicit oracle parameters.  Each definition mirrors one
function of the source, keeping its name where Lean allows it.
-/

namespace LogSearchMCP

/-! ## Python string primitives -/

/-- A Python `str` literal, as a list of characters. -/
def str (s : String) : List Char := s.data

/-- Single-quote character (written numerically to keep command strings readable). -/
def sq : Char := Char.ofNat 39

/-- Double-quote character. -/
def dq : Char := Char.ofNat 34

/-- Left brace character. -/
def lbr : Char := Char.ofNat 123

/-- Right brace character. -/
def rbr : Char := Char.ofNat 125

/-- Newline character. -/
def nl : Char := Char.ofNat 10

/-- ASCII lower-casing of one character, as `str.lower` acts on the ASCII range. -/
def pyToLower (c : Char) : Char :=
  if 'A' ≤ c ∧ c ≤ 'Z' then Char.ofNat (c.toNat + 32) else c

/-- `s.lower()`. -/
def pyLower (s : List Char) : List Char := s.map pyToLower

/-- Python `str.strip`/`str.split` whitespace set (ASCII part). -/
def isPySpace (c : Char) : Bool :=
  c = ' ' ∨ c = '\t' ∨ c = nl ∨ c = Char.ofNat 13 ∨ c = Char.ofNat 11 ∨ c = Char.ofNat 12

/-- `s.strip()`: drop whitespace from both ends. -/
def pyStrip (s : List Char) : List Char :=
  ((s.dropWhile isPySpace).reverse.dropWhile isPySpace).reverse

/-- `s.endswith(c)` for a one-character suffix (the only use in the source). -/
def pyEndswithChar (s : List Char) (c : Char) : Bool :=
  match s.getLast? with
  | some d => d = c
  | none => false

/-- Base-10 value of a digit string. -/
def digitsVal (s : List Char) : Nat :=
  s.foldl (fun a c => a * 10 + (c.toNat - 48)) 0

/-- Digit-run parser underlying Python `int`: all characters must be digits. -/
def pyIntDigits (s : List Char) : Option Nat :=
  if s ≠ [] ∧ s.all Char.isDigit then some (digitsVal s) else none

/-- Python `int(s)` for base 10: strips whitespace, allows one sign, then digits;
`none` models a raised `ValueError`. -/
def pyInt (s : List Char) : Option Int :=
  let t := pyStrip s
  if t.head? = some '-' then (pyIntDigits t.tail).map (fun n => -(n : Int))
  else if t.head? = some '+' then (pyIntDigits t.tail).map (fun n => (n : Int))
  else (pyIntDigits t).map (fun n => (n : Int))

/-- Byte-wise lexicographic `≤` on strings, as `awk` compares strings. -/
def strLe : List Char → List Char → Bool
  | [], _ => true
  | _ :: _, [] => false
  | a :: as, b :: bs =>
    if a.toNat < b.toNat then true
    else if b.toNat < a.toNat then false
    else strLe as bs

/-- `s.split(sep, 1)` for a one-shot split on the first occurrence of `sep`:
`none` when `sep` does not occur. -/
def pySplitOnce (sep : List Char) : List Char → Option (List Char × List Char)
  | [] => none
  | c :: rest =>
    if (c :: rest).take sep.length = sep then
      some ([], (c :: rest).drop sep.length)
    else
      match pySplitOnce sep rest with
      | some (l, r) => some (c :: l, r)
      | none => none

/-- Whether `sep` occurs in `s` (Python `sep in s`). -/
def containsSeq (sep s : List Char) : Bool :=
  (pySplitOnce sep s).isSome

/-- `s.split(c)` on a single character, keeping empty fields. -/
def pySplitChar (c : Char) (s : List Char) : List (List Char) :=
  match s with
  | [] => [[]]
  | d :: rest =>
    let tl := pySplitChar c rest
    if d = c then [] :: tl
    else
      match tl with
      | f :: fs => (d :: f) :: fs
      | [] => [[d]]

/-- Decimal rendering of a natural number. -/
def natRepr (n : Nat) : List Char := (Nat.repr n).data

/-- Decimal rendering of an integer (Python `str(int)`). -/
def intRepr (n : Int) : List Char :=
  if n < 0 then '-' :: natRepr n.natAbs else natRepr n.natAbs

/-! ## Calendar model: Python `datetime` as epoch seconds

`datetime.now()` is modelled as an abstract epoch-second reading;
`timedelta(hours/minutes/days = N)` as `N*3600`, `N*60`, `N*86400`
seconds; `strftime("%Y-%m-%d %H:%M:%S")` by the standard proleptic
Gregorian civil-from-days conversion followed by zero-padded printing. -/

/-- Civil date from a day count relative to 1970-01-01 (proleptic Gregorian). -/
def civilFromDays (z0 : Int) : Int × Int × Int :=
  let z := z0 + 719468
  let era := Int.fdiv z 146097
  let doe := z - era * 146097
  let yoe := Int.fdiv (doe - Int.fdiv doe 1460 + Int.fdiv doe 36524 - Int.fdiv doe 146096) 365
  let y := yoe + era * 400
  let doy := doe - (365 * yoe + Int.fdiv yoe 4 - Int.fdiv yoe 100)
  let mp := Int.fdiv (5 * doy + 2) 153
  let d := doy - Int.fdiv (153 * mp + 2) 5 + 1
  let m := mp + (if mp < 10 then 3 else -9)
  (y + (if m ≤ 2 then 1 else 0), m, d)

/-- Day count from a civil date (inverse of `civilFromDays`). -/
def daysFromCivil (y m d : Int) : Int :=
  let y := y - (if m ≤ 2 then 1 else 0)
  let era := Int.fdiv y 400
  let yoe := y - era * 400
  let mp := m + (if m > 2 then -3 else 9)
  let doy := Int.fdiv (153 * mp + 2) 5 + d - 1
  let doe := yoe * 365 + Int.fdiv yoe 4 - Int.fdiv yoe 100 + doy
  era * 146097 + doe - 719468

/-- Zero-pad a nonnegative integer to `w` digits. -/
def padNum (w : Nat) (n : Int) : List Char :=
  let ds := natRepr n.natAbs
  List.replicate (w - ds.length) '0' ++ ds

/-- `strftime("%Y-%m-%d %H:%M:%S")` on an epoch-second value. -/
def pyStrftime (t : Int) : List Char :=
  let days := Int.fdiv t 86400
  let sod := t - days * 86400
  let ymd := civilFromDays days
  padNum 4 ymd.1 ++ ['-'] ++ padNum 2 ymd.2.1 ++ ['-'] ++ padNum 2 ymd.2.2 ++
    [' '] ++ padNum 2 (Int.fdiv sod 3600) ++ [':'] ++
    padNum 2 (Int.fdiv (sod % 3600) 60) ++ [':'] ++ padNum 2 (sod % 60)

/-- `datetime.fromisoformat` for the shapes the configuration uses:
`YYYY-MM-DD` optionally followed by `[T ]HH:MM:SS`; `none` models the
raised `ValueError` on any other shape. -/
def pyFromIsoformat (s : List Char) : Option Int :=
  let okDate (y mo d : List Char) : Bool :=
    y.length = 4 ∧ y.all Char.isDigit ∧ mo.length = 2 ∧ mo.all Char.isDigit ∧
      d.length = 2 ∧ d.all Char.isDigit ∧
      1 ≤ digitsVal mo ∧ digitsVal mo ≤ 12 ∧ 1 ≤ digitsVal d ∧ digitsVal d ≤ 31
  let okTime (h mi se : List Char) : Bool :=
    h.length = 2 ∧ h.all Char.isDigit ∧ mi.length = 2 ∧ mi.all Char.isDigit ∧
      se.length = 2 ∧ se.all Char.isDigit ∧
      digitsVal h ≤ 23 ∧ digitsVal mi ≤ 59 ∧ digitsVal se ≤ 59
  match s with
  | y1 :: y2 :: y3 :: y4 :: '-' :: m1 :: m2 :: '-' :: d1 :: d2 :: rest =>
    let y := [y1, y2, y3, y4]
    let mo := [m1, m2]
    let d := [d1, d2]
    if okDate y mo d then
      match rest with
      | [] => some (daysFromCivil (digitsVal y) (digitsVal mo) (digitsVal d) * 86400)
      | sep :: h1 :: h2 :: ':' :: n1 :: n2 :: ':' :: s1 :: s2 :: [] =>
        if (sep = 'T' ∨ sep = ' ') ∧ okTime [h1, h2] [n1, n2] [s1, s2] then
          some (daysFromCivil (digitsVal y) (digitsVal mo) (digitsVal d) * 86400 +
            (digitsVal [h1, h2] : Int) * 3600 + (digitsVal [n1, n2] : Int) * 60 +
            (digitsVal [s1, s2] : Int))
        else none
      | _ => none
    else none
  | _ => none

/-! ## Exceptions -/

/-- The Python exception kinds raised by the embedded code. -/
inductive PyErr where
  | valueError (msg : List Char)
  | attributeError (attr : List Char)
  | timeoutError (msg : List Char)
  | runtimeError (msg : List Char)
  | connectionError (msg : List Char)
  deriving DecidableEq

/-- `str(e)` for the modelled exceptions. -/
def pyErrStr : PyErr → List Char
  | .valueError m => m
  | .attributeError a =>
    [sq] ++ str "ServerConfig" ++ [sq] ++ str " object has no attribute " ++ [sq] ++ a ++ [sq]
  | .timeoutError m => m
  | .runtimeError m => m
  | .connectionError m => m

/-! ## Data model (`models/config.py`) -/

/-- `ServerConfig` (pydantic model), with exactly the fields declared in
`models/config.py`.  Note for the claims: no `file_age_limit` field is
declared. -/
structure ServerConfig where
  name : List Char
  hostname : List Char
  port : Nat := 22
  username : List Char
  private_key_path : Option (List Char) := none
  password : Option (List Char) := none
  app_name : List Char
  log_paths : Option (List (List Char)) := none
  timeout : Nat := 30
  deriving DecidableEq

/-- The attribute names the `ServerConfig` pydantic model declares
(`models/config.py` lines 9–17); attribute access outside this list
raises `AttributeError`. -/
def serverConfigFields : List String :=
  ["name", "hostname", "port", "username", "private_key_path", "password",
   "app_name", "log_paths", "timeout"]

/-- Reading `server_config.file_age_limit`: the model declares no such
field, so the access raises `AttributeError` (the `.ok` arm is dead code,
kept only so the definition is the field-table lookup the runtime performs). -/
def ServerConfig.fileAgeLimitAttr (_ : ServerConfig) : Except PyErr (Option Nat) :=
  if serverConfigFields.contains "file_age_limit" then .ok none
  else .error (.attributeError (str "file_age_limit"))

/-- Python truthiness of an optional string (`None` and `""` are falsy). -/
def pyTruthyStr (o : Option (List Char)) : Bool :=
  match o with
  | some s => s ≠ []
  | none => false

/-- Python truthiness of an optional string list (`None` and `[]` are falsy). -/
def pyTruthyList (o : Option (List (List Char))) : Bool :=
  match o with
  | some l => l ≠ []
  | none => false

/-- Python truthiness of an optional integer (`None` and `0` are falsy);
`x or d` returns `d` when `x` is falsy. -/
def pyOrNat (o : Option Nat) (d : Nat) : Nat :=
  match o with
  | some n => if n = 0 then d else n
  | none => d

/-- `LogSearchConfig`: the insertion-ordered `servers` dict and global defaults. -/
structure LogSearchConfig where
  servers : List (List Char × ServerConfig) := []
  default_timeout : Nat := 30
  max_results : Nat := 100
  deriving DecidableEq

/-- Ordered-dict lookup. -/
def alistLookup {α : Type} (l : List (List Char × α)) (k : List Char) : Option α :=
  match l with
  | [] => none
  | (k', v) :: rest => if k' = k then some v else alistLookup rest k

/-! ## Configuration manager (`config/manager.py`) -/

/-- What the persisted configuration file holds: missing, malformed
(TOML parse or model validation raises), or a valid configuration. -/
inductive ConfigSource where
  | absent
  | malformed
  | valid (cfg : LogSearchConfig)

/-- `ConfigManager.load_config`: a missing file creates and returns the
default configuration; a malformed file raises
`ValueError("Invalid configuration file: ...")`. -/
def load_config : ConfigSource → Except PyErr LogSearchConfig
  | .absent => .ok {}
  | .malformed => .error (.valueError (str "Invalid configuration file"))
  | .valid cfg => .ok cfg

/-- Manager state: the cached `_config` and the persisted source. -/
structure MgrState where
  cached : Option LogSearchConfig
  source : ConfigSource

/-- `ConfigManager.get_config`: return the cache, else load. -/
def get_config (st : MgrState) : Except PyErr LogSearchConfig :=
  match st.cached with
  | some c => .ok c
  | none => load_config st.source

/-- `ConfigManager.list_servers`. -/
def list_servers (st : MgrState) : Except PyErr (List (List Char)) := do
  let c ← get_config st
  pure (c.servers.map Prod.fst)

/-- `ConfigManager.get_server`: raises `ValueError` on an unknown name. -/
def get_server (st : MgrState) (server_name : List Char) : Except PyErr ServerConfig := do
  let c ← get_config st
  match alistLookup c.servers server_name with
  | some sc => pure sc
  | none =>
    throw (.valueError (str "Server " ++ [sq] ++ server_name ++ [sq] ++ str " not found"))

/-- `server.py` startup (`main`): `load_config` is attempted once inside
`try/except`; on failure the error is logged and `_config` is left as it
was (`None`) — no fallback configuration is installed. -/
def mainStartupCache (src : ConfigSource) : Option LogSearchConfig :=
  match load_config src with
  | .ok c => some c
  | .error _ => none

/-! ## Time-range compiler (`_parse_time_range`) -/

/-- A compiled time filter: the formatted lower bound, and the upper
bound for absolute ranges. -/
structure TimeFilter where
  lower : List Char
  upper : Option (List Char) := none
  deriving DecidableEq

/-- Whether 19 characters have the shape `YYYY-MM-DD HH:MM:SS`
(the awk regular expression `[0-9]{4}-[0-9]{2}-[0-9]{2} [0-9]{2}:[0-9]{2}:[0-9]{2}`). -/
def isTimestamp19 : List Char → Bool
  | [a1, a2, a3, a4, s1, b1, b2, s2, c1, c2, sp, d1, d2, s3, e1, e2, s4, f1, f2] =>
    a1.isDigit ∧ a2.isDigit ∧ a3.isDigit ∧ a4.isDigit ∧ s1 = '-' ∧
      b1.isDigit ∧ b2.isDigit ∧ s2 = '-' ∧ c1.isDigit ∧ c2.isDigit ∧ sp = ' ' ∧
      d1.isDigit ∧ d2.isDigit ∧ s3 = ':' ∧ e1.isDigit ∧ e2.isDigit ∧ s4 = ':' ∧
      f1.isDigit ∧ f2.isDigit
  | _ => false

/-- `match($0, /.../)` with a fixed-width pattern: the leftmost position
where a timestamp-shaped 19-character substring starts. -/
def firstTimestamp : List Char → Option (List Char)
  | [] => none
  | c :: rest =>
    if isTimestamp19 ((c :: rest).take 19) then some ((c :: rest).take 19)
    else firstTimestamp rest

/-- The predicate the generated awk program applies to one line: drop the
line when it holds no timestamp-shaped substring, else keep it exactly
when the first such substring is lexically within the bounds. -/
def timeFilterKeeps (tf : TimeFilter) (line : List Char) : Bool :=
  match firstTimestamp line with
  | none => false
  | some ts =>
    strLe tf.lower ts &&
      (match tf.upper with
       | none => true
       | some u => strLe ts u)

/-- `[0-9]` repeated: one fragment of the awk timestamp regex. -/
def awkDigits (n : String) : List Char := str "[0-9]" ++ [lbr] ++ str n ++ [rbr]

/-- The awk regex `[0-9]{4}-[0-9]{2}-[0-9]{2} [0-9]{2}:[0-9]{2}:[0-9]{2}`. -/
def awkTsRegex : List Char :=
  awkDigits "4" ++ ['-'] ++ awkDigits "2" ++ ['-'] ++ awkDigits "2" ++ [' '] ++
    awkDigits "2" ++ [':'] ++ awkDigits "2" ++ [':'] ++ awkDigits "2"

/-- The literal awk command string `_parse_time_range` returns for a
compiled filter (the f-strings at lines 94, 100, 108 and 119 of
`tools/log_search.py`). -/
def awkCommandOf (tf : TimeFilter) : List Char :=
  str "awk " ++ [sq] ++ str "match($0, /" ++ awkTsRegex ++ str "/) " ++ [lbr] ++
    str " timestamp = substr($0, RSTART, RLENGTH); if (timestamp >= " ++
    [dq] ++ tf.lower ++ [dq] ++
    (match tf.upper with
     | none => []
     | some u => str " && timestamp <= " ++ [dq] ++ u ++ [dq]) ++
    str ") print " ++ [rbr] ++ [sq]

/-- `_parse_time_range`, with the wall clock (`datetime.now()`) passed as
the epoch-second value it reads at this invocation.  `.error` models the
uncaught `ValueError` from `int(...)` on a malformed relative magnitude;
`.ok none` is the "no filter" fallback. -/
def parseTimeRange (now : Int) (time_range : List Char) : Except PyErr (Option TimeFilter) :=
  let t := pyStrip (pyLower time_range)
  if pyEndswithChar t 'h' then
    match pyInt t.dropLast with
    | none => .error (.valueError (str "invalid literal for int() with base 10"))
    | some n => .ok (some { lower := pyStrftime (now - n * 3600) })
  else if pyEndswithChar t 'm' then
    match pyInt t.dropLast with
    | none => .error (.valueError (str "invalid literal for int() with base 10"))
    | some n => .ok (some { lower := pyStrftime (now - n * 60) })
  else if pyEndswithChar t 'd' then
    match pyInt t.dropLast with
    | none => .error (.valueError (str "invalid literal for int() with base 10"))
    | some n => .ok (some { lower := pyStrftime (now - n * 86400) })
  else if containsSeq (str " to ") t then
    match pySplitOnce (str " to ") t with
    | some (a, b) =>
      match pyFromIsoformat (pyStrip a), pyFromIsoformat (pyStrip b) with
      | some s, some e => .ok (some { lower := pyStrftime s, upper := some (pyStrftime e) })
      | _, _ => .ok none
    | none => .ok none
  else .ok none

/-- Seconds per relative-range unit: `timedelta(hours=1)`, `timedelta(minutes=1)`,
`timedelta(days=1)`. -/
def unitSeconds (c : Char) : Int :=
  if c = 'h' then 3600 else if c = 'm' then 60 else 86400

/-! ## Remote filter-pipeline builder (`_build_grep_command`) -/

/-- `_build_grep_command`.  The clock parameter is the `datetime.now()`
reading taken inside `_parse_time_range` when this build invokes it; the
`Except` propagates the uncaught `int(...)` error. -/
def buildGrepCommand (now : Int) (pattern : List Char) (log_files : List (List Char))
    (time_range : Option (List Char)) (max_results : Option Nat) :
    Except PyErr (List Char) := do
  let grep0 := str "grep -n -E " ++ [sq] ++ pattern ++ [sq] ++ [' '] ++
    (List.intercalate [' '] log_files)
  let grep1 ←
    if pyTruthyStr time_range then
      match parseTimeRange now (time_range.getD []) with
      | .error e => throw e
      | .ok (some tf) => pure (grep0 ++ str " | " ++ awkCommandOf tf)
      | .ok none => pure grep0
    else pure grep0
  let grep2 :=
    match max_results with
    | some m => if m = 0 then grep1 else grep1 ++ str " | head -n " ++ natRepr m
    | none => grep1
  pure (grep2 ++ str " 2>/dev/null || true")

/-! ## Age-based path resolver (`_filter_log_files_by_age`) -/

/-- The remote listing command built for one path spec. -/
def findCmd (log_pattern : List Char) (file_age_limit : Nat) : List Char :=
  str "find " ++ log_pattern ++ str " -type f -mtime -" ++ natRepr file_age_limit ++
    str " 2>/dev/null"

/-- The `for log_pattern in log_files` loop body: run the listing, and when
its stripped output is nonempty split it into lines, strip each, and keep
nonempty ones.  A raised error from any iteration propagates. -/
def findLoop (runCmd : List Char → Except PyErr (List Char)) (file_age_limit : Nat) :
    List (List Char) → Except PyErr (List (List Char))
  | [] => .ok []
  | log_pattern :: rest => do
    let result ← runCmd (findCmd log_pattern file_age_limit)
    let files :=
      if pyStrip result ≠ [] then
        ((pySplitChar nl (pyStrip result)).map pyStrip).filter (fun f => f ≠ [])
      else []
    let more ← findLoop runCmd file_age_limit rest
    pure (files ++ more)

/-- `_filter_log_files_by_age`: a falsy (`None` or `0`) age limit passes the
input through; otherwise the whole loop runs under one `try`, and **any**
failure falls back to the original `log_files` (the `except` at line 78 of
`tools/log_search.py`).  `getCfg` is the `get_config()` call inside the `try`;
`runCmd` is `execute_command` on this host with the default timeout. -/
def filterLogFilesByAge (getCfg : Except PyErr LogSearchConfig)
    (runCmd : List Char → Except PyErr (List Char))
    (log_files : List (List Char)) (file_age_limit : Option Nat) : List (List Char) :=
  if file_age_limit.getD 0 = 0 then log_files
  else
    match (do let _ ← getCfg; findLoop runCmd (file_age_limit.getD 0) log_files :
        Except PyErr (List (List Char))) with
    | .ok files => files
    | .error _ => log_files

/-- The contribution one spec makes when no iteration before it fails. -/
def specContrib (runCmd : List Char → Except PyErr (List Char)) (file_age_limit : Nat)
    (log_pattern : List Char) : List (List Char) :=
  match runCmd (findCmd log_pattern file_age_limit) with
  | .ok result =>
    if pyStrip result ≠ [] then
      ((pySplitChar nl (pyStrip result)).map pyStrip).filter (fun f => f ≠ [])
    else []
  | .error _ => []

/-! ## Search orchestrator (`search_logs`, `search_all_logs`) -/

/-- The derived default log paths for a host. -/
def defaultLogPaths (sc : ServerConfig) : List (List Char) :=
  [str "/opt/logs/" ++ sc.app_name ++ ['/'] ++ sc.app_name ++ str ".log",
   str "/opt/logs/" ++ sc.app_name ++ ['/'] ++ sc.app_name ++ str ".bee.log"]

/-- `if server_config.log_paths: ... else ...` (empty list is falsy). -/
def effectiveLogFiles (sc : ServerConfig) : List (List Char) :=
  if pyTruthyList sc.log_paths then sc.log_paths.getD [] else defaultLogPaths sc

/-- The body of `search_logs` inside its `try`.  `runSSH` models
`ssh_manager.execute_command` (host, command, timeout); `now` is the
wall-clock reading `datetime.now()` would take inside this invocation. -/
def searchLogsBody (st : MgrState)
    (runSSH : ServerConfig → List Char → Nat → Except PyErr (List Char)) (now : Int)
    (server_name pattern : List Char) (time_range : Option (List Char))
    (max_results : Option Nat) : Except PyErr (List (List Char)) := do
  let server_config ← get_server st server_name
  let config ← get_config st
  let maxr := pyOrNat max_results config.max_results
  let log_files := effectiveLogFiles server_config
  let fal ← server_config.fileAgeLimitAttr
  let filtered := filterLogFilesByAge (get_config st)
    (fun c => runSSH server_config c config.default_timeout) log_files fal
  if filtered = [] then
    pure [str "No log files found matching the age filter on " ++ server_name]
  else do
    let command ← buildGrepCommand now pattern filtered time_range (some maxr)
    let result ← runSSH server_config command config.default_timeout
    if pyStrip result = [] then
      pure [str "No results found for pattern " ++ [sq] ++ pattern ++ [sq] ++
        str " on " ++ server_name]
    else
      let lines := pySplitChar nl (pyStrip result)
      let formatted := (lines.filter (fun l => pyStrip l ≠ [])).map
        (fun l => ['['] ++ server_name ++ str "] " ++ l)
      pure (formatted.take maxr)

/-- `search_logs`: the catch-all boundary converts every raised error into
the single host-attributed error line. -/
def search_logs (st : MgrState)
    (runSSH : ServerConfig → List Char → Nat → Except PyErr (List Char)) (now : Int)
    (server_name pattern : List Char) (time_range : Option (List Char))
    (max_results : Option Nat) : List (List Char) :=
  match searchLogsBody st runSSH now server_name pattern time_range max_results with
  | .ok r => r
  | .error e =>
    [str "Error searching logs on " ++ server_name ++ str ": " ++ pyErrStr e]

/-- The `for i, result in enumerate(results)` combination loop of
`search_all_logs`: an exception contributes one `[name] Error: ...` line
(`all_results.append`), a value contributes its lines (`all_results.extend`). -/
def combineResults :
    List (List Char) → List (Except PyErr (List (List Char))) → List (List Char)
  | [], _ => []
  | _, [] => []
  | n :: ns, r :: rs =>
    (match r with
     | .error e => [['['] ++ n ++ str "] Error: " ++ pyErrStr e]
     | .ok lines => lines) ++ combineResults ns rs

/-- `search_all_logs`, over the per-host task outcomes that
`asyncio.gather(..., return_exceptions=True)` delivers in task-creation
order (`taskResult name` is host `name`'s returned value or captured
exception).  `list_servers` runs outside any `try`, so its failure
propagates. -/
def search_all_logs (st : MgrState)
    (taskResult : List Char → Except PyErr (List (List Char))) :
    Except PyErr (List (List Char)) := do
  let server_names ← list_servers st
  if server_names = [] then
    pure [str "No servers configured"]
  else
    pure (combineResults server_names (server_names.map taskResult))

/-- `search_all_logs` with its tasks actually being `search_logs` calls:
each task reads the clock itself (`clock name` is the reading taken inside
host `name`'s task), and `search_logs` never raises, so every gather slot
holds a value. -/
def searchAllRun (st : MgrState)
    (runSSH : ServerConfig → List Char → Nat → Except PyErr (List Char))
    (clock : List Char → Int) (pattern : List Char) (time_range : Option (List Char))
    (max_results : Option Nat) : Except PyErr (List (List Char)) :=
  search_all_logs st
    (fun n => .ok (search_logs st runSSH (clock n) n pattern time_range max_results))

/-! ## SSH connection manager (`utils/ssh_manager.py`) -/

/-- An `asyncssh` session handle: its identity, what `is_closing()` returns,
and whether calling `is_closing()` raises. -/
structure Conn where
  id : Nat
  closing : Bool := false
  livenessRaises : Bool := false
  deriving DecidableEq

/-- The authentication method `connect` puts into `connection_kwargs`. -/
inductive AuthMethod where
  | key (path : List Char)
  | pwd (password : List Char)
  deriving DecidableEq

/-- The credential dispatch at lines 43–49 of `utils/ssh_manager.py`:
a truthy `private_key_path` wins, else a truthy `password`, else
`ValueError` is raised. -/
def chooseAuth (sc : ServerConfig) : Except PyErr AuthMethod :=
  if pyTruthyStr sc.private_key_path then .ok (.key (sc.private_key_path.getD []))
  else if pyTruthyStr sc.password then .ok (.pwd (sc.password.getD []))
  else .error (.valueError (str "Either private_key_path or password must be provided"))

/-- `del self._connections[k]`. -/
def removeConn (t : List (List Char × Conn)) (k : List Char) : List (List Char × Conn) :=
  t.filter (fun p => p.1 ≠ k)

/-- `self._connections[k] = v` (replace in place, else append). -/
def assignConn : List (List Char × Conn) → List Char → Conn → List (List Char × Conn)
  | [], k, v => [(k, v)]
  | (k', v') :: rest, k, v =>
    if k' = k then (k, v) :: rest else (k', v') :: assignConn rest k v

/-- The fresh-connection attempt (lines 35–58): choose the credential
method, call `asyncssh.connect` (the oracle `fresh`, `none` modelling a
raised `asyncssh.Error`), store on success, convert the failure to
`ConnectionError`. -/
def connectFresh (fresh : AuthMethod → Option Conn) (table : List (List Char × Conn))
    (sc : ServerConfig) : Except PyErr Conn × List (List Char × Conn) :=
  match chooseAuth sc with
  | .error e => (.error e, table)
  | .ok method =>
    match fresh method with
    | some conn => (.ok conn, assignConn table sc.name conn)
    | none => (.error (.connectionError (str "Failed to connect to " ++ sc.name)), table)

/-- `SSHConnectionManager.connect`: reuse a cached record whose liveness
check passes; delete the record only when `is_closing()` itself raised;
otherwise fall through to a fresh attempt **without** removing the record. -/
def connect (fresh : AuthMethod → Option Conn) (table : List (List Char × Conn))
    (sc : ServerConfig) : Except PyErr Conn × List (List Char × Conn) :=
  match alistLookup table sc.name with
  | some conn =>
    if conn.livenessRaises then connectFresh fresh (removeConn table sc.name) sc
    else if !conn.closing then (.ok conn, table)
    else connectFresh fresh table sc
  | none => connectFresh fresh table sc

/-! ## Interleaving model for concurrent `connect` calls

`connect` is an `async def` whose only suspension point is
`await asyncssh.connect(...)`; everything before (the cache check and
credential dispatch) and after (the store) runs atomically between
suspensions under the cooperative scheduler.  One task is therefore a
two-step machine, and a schedule is the order in which the event loop
resumes the two tasks. -/

/-- Shared state: the connection table, and the ids of every session
`asyncssh.connect` has created, in creation order. -/
structure SysState where
  table : List (List Char × Conn) := []
  created : List Nat := []
  deriving DecidableEq

instance {α β : Type} [DecidableEq α] [DecidableEq β] : DecidableEq (Except α β) :=
  fun a b =>
    match a, b with
    | .ok x, .ok y => decidable_of_iff (x = y) (by simp)
    | .error x, .error y => decidable_of_iff (x = y) (by simp)
    | .ok _, .error _ => isFalse (by simp)
    | .error _, .ok _ => isFalse (by simp)

/-- Program counter of one in-flight `connect` call. -/
inductive TaskPC where
  | start
  | awaiting
  | done (r : Except PyErr Conn)
  deriving DecidableEq

/-- One resumption of a task: from `start`, run the cache check and
credential dispatch up to the suspension (or finish early on reuse /
`ValueError`); from `awaiting`, complete `asyncssh.connect` with oracle
outcome `fresh` and run the store. -/
def taskStep (fresh : Option Conn) (sc : ServerConfig) :
    TaskPC → SysState → TaskPC × SysState
  | .start, s =>
    (match alistLookup s.table sc.name with
     | some conn =>
       if conn.livenessRaises then
         match chooseAuth sc with
         | .ok _ => (.awaiting, { s with table := removeConn s.table sc.name })
         | .error e => (.done (.error e), { s with table := removeConn s.table sc.name })
       else if !conn.closing then (.done (.ok conn), s)
       else
         match chooseAuth sc with
         | .ok _ => (.awaiting, s)
         | .error e => (.done (.error e), s)
     | none =>
       match chooseAuth sc with
       | .ok _ => (.awaiting, s)
       | .error e => (.done (.error e), s))
  | .awaiting, s =>
    (match fresh with
     | some conn =>
       (.done (.ok conn),
        { table := assignConn s.table sc.name conn, created := s.created ++ [conn.id] })
     | none =>
       (.done (.error (.connectionError (str "Failed to connect to " ++ sc.name))), s))
  | .done r, s => (.done r, s)

/-- Two concurrent `connect` callers over the shared table. -/
structure TwoTasks where
  s : SysState := {}
  pc1 : TaskPC := .start
  pc2 : TaskPC := .start
  deriving DecidableEq

/-- Resume task 1 (`true`) or task 2 (`false`). -/
def schedStep (f1 f2 : Option Conn) (sc1 sc2 : ServerConfig) (w : Bool)
    (ts : TwoTasks) : TwoTasks :=
  if w then
    let r := taskStep f1 sc1 ts.pc1 ts.s
    { ts with pc1 := r.1, s := r.2 }
  else
    let r := taskStep f2 sc2 ts.pc2 ts.s
    { ts with pc2 := r.1, s := r.2 }

/-- Run a schedule (a list of resumption choices). -/
def runSched (f1 f2 : Option Conn) (sc1 sc2 : ServerConfig) :
    List Bool → TwoTasks → TwoTasks
  | [], ts => ts
  | w :: rest, ts => runSched f1 f2 sc1 sc2 rest (schedStep f1 f2 sc1 sc2 w ts)

/-! ## Protocol resources (`server.py`) -/

/-- JSON string escaping (quote and backslash). -/
def jsonEscape (s : List Char) : List Char :=
  s.flatMap (fun c => if c = dq ∨ c = '\\' then ['\\', c] else [c])

/-- A JSON string literal. -/
def jsonStr (s : List Char) : List Char := [dq] ++ jsonEscape s ++ [dq]

/-- A JSON value for an optional string (`null` for `None`). -/
def jsonOptStr : Option (List Char) → List Char
  | some s => jsonStr s
  | none => str "null"

/-- A JSON array of strings at indent level 2. -/
def jsonArr (l : List (List Char)) : List Char :=
  match l with
  | [] => str "[]"
  | _ =>
    ['[', nl] ++ List.intercalate [',', nl] (l.map (fun s => str "    " ++ jsonStr s)) ++
      [nl] ++ str "  ]"

/-- `server_config.model_dump_json(indent=2)`: every declared field, in
declaration order — including `private_key_path` and `password`. -/
def model_dump_json (sc : ServerConfig) : List Char :=
  [lbr, nl] ++
  str "  " ++ jsonStr (str "name") ++ str ": " ++ jsonStr sc.name ++ [',', nl] ++
  str "  " ++ jsonStr (str "hostname") ++ str ": " ++ jsonStr sc.hostname ++ [',', nl] ++
  str "  " ++ jsonStr (str "port") ++ str ": " ++ natRepr sc.port ++ [',', nl] ++
  str "  " ++ jsonStr (str "username") ++ str ": " ++ jsonStr sc.username ++ [',', nl] ++
  str "  " ++ jsonStr (str "private_key_path") ++ str ": " ++
    jsonOptStr sc.private_key_path ++ [',', nl] ++
  str "  " ++ jsonStr (str "password") ++ str ": " ++ jsonOptStr sc.password ++ [',', nl] ++
  str "  " ++ jsonStr (str "app_name") ++ str ": " ++ jsonStr sc.app_name ++ [',', nl] ++
  str "  " ++ jsonStr (str "log_paths") ++ str ": " ++
    (match sc.log_paths with
     | none => str "null"
     | some l => jsonArr l) ++ [',', nl] ++
  str "  " ++ jsonStr (str "timeout") ++ str ": " ++ natRepr sc.timeout ++
  [nl, rbr]

/-- `read_resource`: a `server://<name>` URI is answered with the full
model dump of that host's profile. -/
def read_resource (st : MgrState) (uri : List Char) : Except PyErr (List Char) :=
  if uri.take 9 = str "server://" then
    let server_name := uri.drop 9
    match get_server st server_name with
    | .ok sc => .ok (model_dump_json sc)
    | .error (.valueError _) =>
      .error (.valueError (str "Server not found: " ++ server_name))
    | .error e => .error e
  else .error (.valueError (str "Unknown resource: " ++ uri))

/-! ## pydantic construction of `ServerConfig` -/

/-- The keyword arguments supplied to `ServerConfig(name=..., **data)`:
`none` means the key was not supplied. -/
structure RawServerData where
  hostname : Option (List Char) := none
  port : Option Nat := none
  username : Option (List Char) := none
  private_key_path : Option (List Char) := none
  password : Option (List Char) := none
  app_name : Option (List Char) := none
  log_paths : Option (List (List Char)) := none
  timeout : Option Nat := none

/-- pydantic validation of `ServerConfig`: the required fields
(`hostname`, `username`, `app_name`) must be supplied, optional fields
take their declared defaults.  The model declares **no** validator
relating `private_key_path` and `password`. -/
def ServerConfig.validate (name : List Char) (d : RawServerData) :
    Except PyErr ServerConfig :=
  match d.hostname, d.username, d.app_name with
  | some h, some u, some a =>
    .ok { name := name, hostname := h, port := d.port.getD 22, username := u,
          private_key_path := d.private_key_path, password := d.password,
          app_name := a, log_paths := d.log_paths, timeout := d.timeout.getD 30 }
  | _, _, _ => .error (.valueError (str "validation error for ServerConfig"))

/-- What one host contributes to the combined result list: a captured
exception contributes exactly one attributed error line, a value
contributes its lines. -/
def hostContrib (taskResult : List Char → Except PyErr (List (List Char)))
    (n : List Char) : List (List Char) :=
  match taskResult n with
  | .error e => [['['] ++ n ++ str "] Error: " ++ pyErrStr e]
  | .ok lines => lines

/-- Fixture: a host profile whose password is `"hunter2"`. -/
def c9cfgA : ServerConfig :=
  { name := str "a", hostname := str "h", username := str "u", app_name := str "x",
    password := some (str "hunter2") }

/-- Fixture: the same profile with password `"hunter3"`. -/
def c9cfgB : ServerConfig :=
  { name := str "a", hostname := str "h", username := str "u", app_name := str "x",
    password := some (str "hunter3") }

/-- Fixture: a password-authenticated host profile named `"a"`. -/
def c10cfg : ServerConfig :=
  { name := str "a", hostname := str "h", username := str "u", app_name := str "x",
    password := some (str "p") }

/-- Fixture: the same profile under the host name `"b"`. -/
def c10cfgB : ServerConfig :=
  { name := str "b", hostname := str "h", username := str "u", app_name := str "x",
    password := some (str "p") }

/-! # Theorems -/

/-! ## Helper lemmas on the string primitives -/

theorem pyToLower_of_digit {c : Char} (h : c.isDigit = true) : pyToLower c = c := by
  unfold pyToLower
  rw [if_neg]
  rintro ⟨h1, h2⟩
  simp only [Char.isDigit, Bool.and_eq_true, decide_eq_true_eq, Char.le_def] at h h1 h2
  have ha : (65 : Nat) ≤ c.val.toNat := h1
  have hb : c.val.toNat ≤ 57 := h.2
  omega

theorem isPySpace_of_digit {c : Char} (h : c.isDigit = true) : isPySpace c = false := by
  simp only [isPySpace, decide_eq_false_iff_not]
  rintro (rfl | rfl | rfl | rfl | rfl | rfl) <;> exact absurd h (by decide)

theorem digit_ne_dash {c : Char} (h : c.isDigit = true) : c ≠ '-' := by
  rintro rfl; exact absurd h (by decide)

theorem digit_ne_plus {c : Char} (h : c.isDigit = true) : c ≠ '+' := by
  rintro rfl; exact absurd h (by decide)

theorem dropWhile_eq_self_of_forall {p : Char → Bool} :
    ∀ {l : List Char}, (∀ c ∈ l, p c = false) → l.dropWhile p = l
  | [], _ => rfl
  | c :: rest, h => by
    rw [List.dropWhile_cons, if_neg]
    simp [h c (List.mem_cons_self c rest)]

theorem pyStrip_of_no_space {l : List Char} (h : ∀ c ∈ l, isPySpace c = false) :
    pyStrip l = l := by
  unfold pyStrip
  rw [dropWhile_eq_self_of_forall h,
    dropWhile_eq_self_of_forall (fun c hc => h c (List.mem_reverse.mp hc)),
    List.reverse_reverse]

theorem pyLower_of_digits {l : List Char} (hd : ∀ c ∈ l, c.isDigit = true) :
    pyLower l = l := by
  induction l with
  | nil => rfl
  | cons c cs ih =>
    have h1 := pyToLower_of_digit (hd c (List.mem_cons_self c cs))
    have h2 := ih (fun a ha => hd a (List.mem_cons_of_mem c ha))
    simp [pyLower] at h2 ⊢
    exact ⟨h1, h2⟩

theorem pyIntDigits_of_digits {l : List Char} (hne : l ≠ [])
    (hd : ∀ c ∈ l, c.isDigit = true) : pyIntDigits l = some (digitsVal l) := by
  unfold pyIntDigits
  rw [if_pos]
  exact ⟨hne, List.all_eq_true.mpr hd⟩

theorem pyInt_of_digits {l : List Char} (hne : l ≠ [])
    (hd : ∀ c ∈ l, c.isDigit = true) : pyInt l = some ((digitsVal l : Int)) := by
  unfold pyInt
  simp only [pyStrip_of_no_space (fun c hc => isPySpace_of_digit (hd c hc))]
  match l, hne with
  | c :: rest, _ =>
    have hc := hd c (List.mem_cons_self c rest)
    rw [List.head?_cons, if_neg (by simpa using digit_ne_dash hc),
      if_neg (by simpa using digit_ne_plus hc),
      pyIntDigits_of_digits (by simp) hd]
    rfl

theorem pyEndswithChar_concat (l : List Char) (a c : Char) :
    pyEndswithChar (l ++ [a]) c = decide (a = c) := by
  unfold pyEndswithChar
  rw [List.getLast?_concat]

theorem timeFilterKeeps_no_upper (lo line : List Char) :
    timeFilterKeeps { lower := lo, upper := none } line = true ↔
      ∃ ts, firstTimestamp line = some ts ∧ strLe lo ts = true := by
  unfold timeFilterKeeps
  cases h : firstTimestamp line with
  | none => simp
  | some ts => simp

/-- Shared parsing lemma: a digit string followed by a (lowered) unit
letter compiles to the filter whose lower bound is the clock minus the
parsed magnitude times the unit, with no upper bound. -/
theorem parseTimeRange_relative_eq (now : Int) (ds : List Char) (u : Char)
    (hne : ds ≠ []) (hdig : ∀ c ∈ ds, c.isDigit = true)
    (hu : pyToLower u = 'h' ∨ pyToLower u = 'm' ∨ pyToLower u = 'd') :
    parseTimeRange now (ds ++ [u]) =
      .ok (some { lower := pyStrftime (now - (digitsVal ds : Int) * unitSeconds (pyToLower u)),
                  upper := none }) := by
  have hlow : pyLower (ds ++ [u]) = ds ++ [pyToLower u] := by
    unfold pyLower
    rw [List.map_append]
    congr 1
    exact pyLower_of_digits hdig
  have hnospace : ∀ c ∈ ds ++ [pyToLower u], isPySpace c = false := by
    intro c hc
    rcases List.mem_append.mp hc with h | h
    · exact isPySpace_of_digit (hdig c h)
    · rw [List.mem_singleton.mp h]
      rcases hu with h' | h' | h' <;> rw [h'] <;> decide
  have ht : pyStrip (pyLower (ds ++ [u])) = ds ++ [pyToLower u] := by
    rw [hlow]; exact pyStrip_of_no_space hnospace
  rcases hu with h' | h' | h' <;>
    · simp only [parseTimeRange, ht, h', pyEndswithChar_concat]
      simp [pyInt_of_digits hne hdig, unitSeconds, h']

/-! ## Claim C4: relative time expressions -/

/-- **C4.** For every relative time expression of the form `<N>h`, `<N>m`
or `<N>d` (case-insensitive trailing unit), `_parse_time_range` compiles a
filter whose lower bound is the compile-time clock minus `N` hours,
minutes or days, formatted by `strftime("%Y-%m-%d %H:%M:%S")`, with no
upper bound; the compiled predicate keeps exactly the lines whose first
embedded `YYYY-MM-DD HH:MM:SS`-shaped substring is lexically ≥ the lower
bound, and drops lines containing no such substring. -/
theorem C4_relative_time_filter (now : Int) (s ds : List Char) (u : Char)
    (hs : s = ds ++ [u]) (hne : ds ≠ []) (hdig : ∀ c ∈ ds, c.isDigit = true)
    (hu : pyToLower u = 'h' ∨ pyToLower u = 'm' ∨ pyToLower u = 'd') :
    ∃ tf : TimeFilter,
      parseTimeRange now s = .ok (some tf) ∧
      tf.lower = pyStrftime (now - (digitsVal ds : Int) * unitSeconds (pyToLower u)) ∧
      tf.upper = none ∧
      ∀ line, timeFilterKeeps tf line = true ↔
        ∃ ts, firstTimestamp line = some ts ∧ strLe tf.lower ts = true := by
  subst hs
  exact ⟨{ lower := pyStrftime (now - (digitsVal ds : Int) * unitSeconds (pyToLower u)) },
    parseTimeRange_relative_eq now ds u hne hdig hu, rfl, rfl,
    fun line => timeFilterKeeps_no_upper _ line⟩

/-- Witness for C4 at the concrete input `"1h"` with the clock at epoch
second 1700000000 (2023-11-14 22:13:20): the compiled lower bound is one
hour earlier, a later-stamped line passes, a stamp-free line is dropped. -/
theorem C4_relative_time_filter_witness :
    parseTimeRange 1700000000 (str "1h") =
      .ok (some { lower := str "2023-11-14 21:13:20", upper := none }) ∧
    timeFilterKeeps { lower := str "2023-11-14 21:13:20", upper := none }
      (str "log 2023-11-14 22:00:00 boom") = true ∧
    timeFilterKeeps { lower := str "2023-11-14 21:13:20", upper := none }
      (str "no timestamp in this line") = false := by
  obtain ⟨tf, h1, h2, h3, _⟩ := C4_relative_time_filter 1700000000 (str "1h") ['1'] 'h'
    (by decide) (by decide) (by decide) (Or.inl (by decide))
  have hlo : tf.lower = str "2023-11-14 21:13:20" := by rw [h2]; decide
  have htf : tf = { lower := str "2023-11-14 21:13:20", upper := none } := by
    cases tf
    simp only at hlo h3
    rw [hlo, h3]
  rw [htf] at h1
  exact ⟨h1, by decide, by decide⟩

/-! ## Claim C1: multi-host aggregation -/

theorem combineResults_eq_flatMap
    (taskResult : List Char → Except PyErr (List (List Char))) :
    ∀ names : List (List Char),
      combineResults names (names.map taskResult) =
        names.flatMap (hostContrib taskResult)
  | [] => rfl
  | n :: ns => by
    simp only [List.map_cons, combineResults, List.flatMap_cons]
    rw [combineResults_eq_flatMap taskResult ns]
    rfl

/-- **C1.** For every configuration and every assignment of per-host task
outcomes, `search_all_logs` returns one contribution per configured host,
concatenated in host-enumeration order: a host whose task raised
contributes exactly one host-attributed error line, a successful host
contributes its result lines, no host's exception disturbs the others'
contributions; and with zero configured hosts the result is exactly the
one-element "No servers configured" message. -/
theorem C1_search_all_aggregation (st : MgrState) (cfg : LogSearchConfig)
    (hcfg : get_config st = .ok cfg)
    (taskResult : List Char → Except PyErr (List (List Char))) :
    search_all_logs st taskResult =
      .ok (if cfg.servers.map Prod.fst = [] then [str "No servers configured"]
           else (cfg.servers.map Prod.fst).flatMap (hostContrib taskResult)) := by
  unfold search_all_logs list_servers
  rw [hcfg]
  show (if cfg.servers.map Prod.fst = [] then _ else _ : Except PyErr _) = _
  split
  · rfl
  · rw [combineResults_eq_flatMap]
    rfl

/-- Witness for C1: two hosts of which the second's task raised, and the
zero-host case. -/
theorem C1_search_all_aggregation_witness :
    search_all_logs
      ⟨some { servers := [(str "alpha", c10cfg), (str "beta", c10cfgB)] }, .absent⟩
      (fun n => if n = str "alpha" then .ok [str "[alpha] 1:x", str "[alpha] 2:y"]
                else .error (.runtimeError (str "boom"))) =
      .ok [str "[alpha] 1:x", str "[alpha] 2:y", str "[beta] Error: boom"] ∧
    search_all_logs ⟨some { servers := [] }, .absent⟩ (fun _ => .ok []) =
      .ok [str "No servers configured"] := by
  constructor
  · rw [C1_search_all_aggregation
      ⟨some { servers := [(str "alpha", c10cfg), (str "beta", c10cfgB)] }, .absent⟩ _ rfl _]
    decide
  · rw [C1_search_all_aggregation ⟨some { servers := [] }, .absent⟩ _ rfl _]
    decide

/-! ## Claim C2: the `file_age_limit` attribute access -/

/-- **C2.** The `ServerConfig` model declares no `file_age_limit` field,
yet `search_logs` reads `server_config.file_age_limit` at the age-filter
step; so for every input whose host name resolves to a profile, the body
raises `AttributeError` there, the broad handler converts it, and
`search_logs` returns the host-attributed error line instead of search
results — for every pattern, time range, result cap, clock and SSH
oracle. -/
theorem C2_file_age_limit_attribute_error (st : MgrState)
    (runSSH : ServerConfig → List Char → Nat → Except PyErr (List Char)) (now : Int)
    (server_name pattern : List Char) (time_range : Option (List Char))
    (max_results : Option Nat) (sc : ServerConfig)
    (hsrv : get_server st server_name = .ok sc) :
    serverConfigFields.contains "file_age_limit" = false ∧
    searchLogsBody st runSSH now server_name pattern time_range max_results =
      .error (.attributeError (str "file_age_limit")) ∧
    search_logs st runSSH now server_name pattern time_range max_results =
      [str "Error searching logs on " ++ server_name ++ str ": " ++
        pyErrStr (.attributeError (str "file_age_limit"))] := by
  have hcfg : ∃ cfg, get_config st = .ok cfg := by
    unfold get_server at hsrv
    cases h : get_config st with
    | ok c => exact ⟨c, rfl⟩
    | error e => rw [h] at hsrv; exact absurd hsrv (by simp [Bind.bind, Except.bind])
  obtain ⟨cfg, hc⟩ := hcfg
  have hbody : searchLogsBody st runSSH now server_name pattern time_range max_results =
      .error (.attributeError (str "file_age_limit")) := by
    unfold searchLogsBody
    rw [hsrv, hc]
    rfl
  refine ⟨by decide, hbody, ?_⟩
  unfold search_logs
  rw [hbody]

/-- Witness for C2: a configured host `"a"` with an SSH oracle that would
happily return output — the search still yields only the attribute-error
line. -/
theorem C2_file_age_limit_attribute_error_witness :
    search_logs ⟨some { servers := [(str "a", c10cfg)] }, .absent⟩
      (fun _ _ _ => .ok (str "1:hit")) 1700000000
      (str "a") (str "ERROR") (some (str "1h")) (some 10) =
      [str "Error searching logs on a: " ++
        pyErrStr (.attributeError (str "file_age_limit"))] := by
  have h := C2_file_age_limit_attribute_error
    ⟨some { servers := [(str "a", c10cfg)] }, .absent⟩
    (fun _ _ _ => .ok (str "1:hit")) 1700000000
    (str "a") (str "ERROR") (some (str "1h")) (some 10) c10cfg rfl
  exact h.2.2

/-! ## Claim C3: when and how often the time filter is compiled -/

set_option maxRecDepth 4000 in
/-- **C3 counterexample.** The compiled filter is a function of the clock
reading taken inside each `_build_grep_command` call (each per-host task
performs its own call): the same request data `("ERROR", "1h", cap 5)`
compiled at build instants ten seconds apart yields different filters and
different remote commands, so an identical request-time filter is *not*
what every host receives. -/
theorem C3_per_request_filter_counterexample :
    parseTimeRange 1700000000 (str "1h") ≠ parseTimeRange 1700000010 (str "1h") ∧
    buildGrepCommand 1700000000 (str "ERROR") [str "/a.log"] (some (str "1h")) (some 5) ≠
      buildGrepCommand 1700000010 (str "ERROR") [str "/a.log"] (some (str "1h")) (some 5) := by
  decide

/-- **C3 amended.** Each per-host search compiles its own `TimeFilter` at
its own command-build time: the built command embeds the awk filter whose
lower bound is *that build's* clock reading minus `N` units (and in the
program as written the per-host search fails before ever reaching this
build step — see C2 — so no request-level filter exists to be shared). -/
theorem C3_filter_compiled_per_build (now : Int) (pattern : List Char)
    (files : List (List Char)) (s ds : List Char) (u : Char) (m : Nat) (hm : m ≠ 0)
    (hs : s = ds ++ [u]) (hne : ds ≠ []) (hdig : ∀ c ∈ ds, c.isDigit = true)
    (hu : pyToLower u = 'h' ∨ pyToLower u = 'm' ∨ pyToLower u = 'd') :
    buildGrepCommand now pattern files (some s) (some m) =
      .ok (str "grep -n -E " ++ [sq] ++ pattern ++ [sq] ++ [' '] ++
        List.intercalate [' '] files ++ str " | " ++
        awkCommandOf { lower := pyStrftime (now - (digitsVal ds : Int) * unitSeconds (pyToLower u)),
                       upper := none } ++
        str " | head -n " ++ natRepr m ++ str " 2>/dev/null || true") := by
  subst hs
  have htr : pyTruthyStr (some (ds ++ [u])) = true := by simp [pyTruthyStr]
  unfold buildGrepCommand
  rw [htr]
  simp only [Option.getD_some, parseTimeRange_relative_eq now ds u hne hdig hu,
    if_true, if_neg hm]
  simp [List.append_assoc]
  rfl

set_option maxRecDepth 4000 in
/-- Witness for the amended C3 at a concrete build instant. -/
theorem C3_filter_compiled_per_build_witness :
    buildGrepCommand 1700000000 (str "ERROR") [str "/a.log"] (some (str "1h")) (some 5) =
      .ok (str "grep -n -E " ++ [sq] ++ str "ERROR" ++ [sq] ++ [' '] ++
        List.intercalate [' '] [str "/a.log"] ++ str " | " ++
        awkCommandOf { lower := str "2023-11-14 21:13:20", upper := none } ++
        str " | head -n " ++ natRepr 5 ++ str " 2>/dev/null || true") := by
  have h := C3_filter_compiled_per_build 1700000000 (str "ERROR") [str "/a.log"]
    (str "1h") ['1'] 'h' 5 (by decide) (by decide) (by decide) (by decide)
    (Or.inl (by decide))
  rw [h]
  decide

/-! ## Claim C5: per-spec failure isolation in age-based resolution -/

theorem findLoop_error_of_failing (runCmd : List Char → Except PyErr (List Char)) (n : Nat) :
    ∀ (files : List (List Char)) (pat : List Char), pat ∈ files →
      (∀ out, runCmd (findCmd pat n) ≠ .ok out) →
      ∃ e, findLoop runCmd n files = .error e
  | [], pat, hmem, _ => absurd hmem (List.not_mem_nil pat)
  | q :: rest, pat, hmem, hfail => by
    cases hq : runCmd (findCmd q n) with
    | error e =>
      refine ⟨e, ?_⟩
      unfold findLoop
      rw [hq]
      rfl
    | ok out =>
      rcases List.mem_cons.mp hmem with rfl | hmem'
      · exact absurd hq (hfail out)
      · obtain ⟨e, he⟩ := findLoop_error_of_failing runCmd n rest pat hmem' hfail
        refine ⟨e, ?_⟩
        unfold findLoop
        rw [hq, he]
        rfl

theorem findLoop_ok_of_all (runCmd : List Char → Except PyErr (List Char)) (n : Nat) :
    ∀ files : List (List Char),
      (∀ pat ∈ files, ∃ out, runCmd (findCmd pat n) = .ok out) →
      findLoop runCmd n files = .ok (files.flatMap (specContrib runCmd n))
  | [], _ => rfl
  | q :: rest, h => by
    obtain ⟨out, hq⟩ := h q (List.mem_cons_self q rest)
    have ih := findLoop_ok_of_all runCmd n rest
      (fun p hp => h p (List.mem_cons_of_mem q hp))
    unfold findLoop
    rw [hq, ih]
    show Except.ok _ = _
    rw [List.flatMap_cons]
    congr 1
    congr 1
    unfold specContrib
    rw [hq]

/-- **C5 counterexample.** Two specs with a configured age limit of 5
days, where `/a*` lists one file and `/b*`'s listing fails: the claim
predicts `/b*` contributes zero files while `/a*` keeps its contribution
(result `["/a1.log"]`), but the code returns the *original input specs*
unchanged — the one failure aborts the whole resolution. -/
theorem C5_spec_isolation_counterexample :
    filterLogFilesByAge (.ok {})
      (fun cmd => if cmd = findCmd (str "/a*") 5 then .ok (str "/a1.log")
                  else .error (.runtimeError (str "boom")))
      [str "/a*", str "/b*"] (some 5) = [str "/a*", str "/b*"] ∧
    ([str "/a*", str "/b*"] : List (List Char)) ≠ [str "/a1.log"] := by
  decide

/-- **C5 amended.** The whole resolution loop runs under one `try`: if
the remote listing fails for *any* spec, the entire resolution is
abandoned and the original input list is returned unchanged, discarding
every other spec's contribution; only when every spec's listing succeeds
does each spec contribute its files, concatenated in spec order. -/
theorem C5_age_filter_abort_fallback (getCfg : Except PyErr LogSearchConfig)
    (runCmd : List Char → Except PyErr (List Char))
    (files : List (List Char)) (n : Nat) (hn : n ≠ 0) :
    ((∃ pat ∈ files, ∀ out, runCmd (findCmd pat n) ≠ .ok out) →
      filterLogFilesByAge getCfg runCmd files (some n) = files) ∧
    (∀ cfg, getCfg = .ok cfg →
      (∀ pat ∈ files, ∃ out, runCmd (findCmd pat n) = .ok out) →
      filterLogFilesByAge getCfg runCmd files (some n) =
        files.flatMap (specContrib runCmd n)) := by
  constructor
  · rintro ⟨pat, hmem, hfail⟩
    unfold filterLogFilesByAge
    rw [if_neg (by simpa using hn)]
    simp only [Option.getD_some]
    cases hcfg : getCfg with
    | error e => rfl
    | ok cfg =>
      obtain ⟨e, he⟩ := findLoop_error_of_failing runCmd n files pat hmem hfail
      rw [he]
      rfl
  · intro cfg hcfg hall
    unfold filterLogFilesByAge
    rw [if_neg (by simpa using hn)]
    simp only [Option.getD_some]
    rw [hcfg, findLoop_ok_of_all runCmd n files hall]
    rfl

/-- Witness for the amended C5: the fallback at the failing oracle, and
the per-spec contribution when every listing succeeds. -/
theorem C5_age_filter_abort_fallback_witness :
    filterLogFilesByAge (.ok {})
      (fun cmd => if cmd = findCmd (str "/a*") 5 then .ok (str "/a1.log")
                  else .error (.runtimeError (str "boom")))
      [str "/a*", str "/b*"] (some 5) = [str "/a*", str "/b*"] ∧
    filterLogFilesByAge (.ok {})
      (fun cmd => if cmd = findCmd (str "/a*") 5 then .ok (str "/a1.log")
                  else .error (.runtimeError (str "boom")))
      [str "/a*"] (some 5) = [str "/a1.log"] := by
  constructor
  · apply (C5_age_filter_abort_fallback (.ok {})
      (fun cmd => if cmd = findCmd (str "/a*") 5 then .ok (str "/a1.log")
                  else .error (.runtimeError (str "boom")))
      [str "/a*", str "/b*"] 5 (by decide)).1
    refine ⟨str "/b*", by decide, ?_⟩
    intro out
    show (if findCmd (str "/b*") 5 = findCmd (str "/a*") 5 then _ else _) ≠ _
    rw [if_neg (by decide)]
    exact fun hcontr => Except.noConfusion hcontr
  · refine ((C5_age_filter_abort_fallback (.ok {})
      (fun cmd => if cmd = findCmd (str "/a*") 5 then .ok (str "/a1.log")
                  else .error (.runtimeError (str "boom")))
      [str "/a*"] 5 (by decide)).2 {} rfl ?_).trans (by decide)
    intro pat hpat
    rcases List.mem_singleton.mp hpat with rfl
    exact ⟨str "/a1.log", by decide⟩

/-! ## Claim C6: no record left behind on connect failure -/

/-- **C6 counterexample.** Host `"a"` has a cached record whose
`is_closing()` returns `True` (liveness fails without raising); the fresh
attempt fails.  `connect` raises the connection error but the stale
record for `"a"` is still in the table — a record *is* left behind. -/
theorem C6_stale_record_counterexample :
    (connect (fun _ => none) [(str "a", { id := 0, closing := true })] c10cfg).1 =
      .error (.connectionError (str "Failed to connect to a")) ∧
    alistLookup (connect (fun _ => none) [(str "a", { id := 0, closing := true })] c10cfg).2
      (str "a") = some { id := 0, closing := true } := by
  decide

/-- **C6 amended.** When a fresh connection cannot be established (and a
credential method is configured), `connect` raises a connection-kind
error and stores no *new* record; a previously cached record is removed
only when its `is_closing()` call itself raised — a cached record whose
liveness check returned "closing" without raising is left in the table,
and a genuinely live cached record is simply reused. -/
theorem C6_connect_failure_state (table : List (List Char × Conn)) (sc : ServerConfig)
    (m : AuthMethod) (hm : chooseAuth sc = .ok m) :
    connect (fun _ => none) table sc =
      match alistLookup table sc.name with
      | some conn =>
        if conn.livenessRaises then
          (.error (.connectionError (str "Failed to connect to " ++ sc.name)),
           removeConn table sc.name)
        else if conn.closing then
          (.error (.connectionError (str "Failed to connect to " ++ sc.name)), table)
        else (.ok conn, table)
      | none => (.error (.connectionError (str "Failed to connect to " ++ sc.name)), table) := by
  unfold connect connectFresh
  rw [hm]
  cases alistLookup table sc.name with
  | none => rfl
  | some conn =>
    by_cases hr : conn.livenessRaises
    · simp [hr]
    · by_cases hc : conn.closing <;> simp [hr, hc]

/-- Witness for the amended C6: an empty table stays empty on failure, and
a cached record whose liveness check *raised* is removed. -/
theorem C6_connect_failure_state_witness :
    connect (fun _ => none) [] c10cfg =
      (.error (.connectionError (str "Failed to connect to a")), []) ∧
    connect (fun _ => none)
      [(str "a", { id := 0, closing := true, livenessRaises := true })] c10cfg =
      (.error (.connectionError (str "Failed to connect to a")), []) := by
  have h1 := C6_connect_failure_state [] c10cfg (.pwd (str "p")) (by decide)
  have h2 := C6_connect_failure_state
    [(str "a", { id := 0, closing := true, livenessRaises := true })]
    c10cfg (.pwd (str "p")) (by decide)
  exact ⟨h1.trans (by decide), h2.trans (by decide)⟩

/-! ## Claim C7: malformed configuration handling -/

/-- **C7.** With a malformed persisted configuration the startup handler
swallows the load error but installs **no** fallback configuration
(`_config` stays `None`, first conjunct), so the next query re-attempts
the load: `search_all_logs` raises `ValueError("Invalid configuration
file...")` out of the orchestrator instead of producing an aggregate
response — contradicting both the claimed empty-configuration fallback
and the claimed no-fault aggregate guarantee. -/
theorem C7_malformed_config_fault :
    mainStartupCache .malformed = none ∧
    search_all_logs ⟨mainStartupCache .malformed, .malformed⟩ (fun _ => .ok []) =
      .error (.valueError (str "Invalid configuration file")) ∧
    get_config ⟨mainStartupCache .malformed, .malformed⟩ =
      .error (.valueError (str "Invalid configuration file")) := by
  exact ⟨rfl, rfl, rfl⟩

/-! ## Claim C8: credential-exclusivity invariant at construction -/

/-- **C8 counterexample.** pydantic happily constructs a profile with
*zero* credential methods (both optional fields default to `None`) and
one with *two* (both supplied) — no construction-time exclusivity check
exists. -/
theorem C8_construction_counterexample :
    ServerConfig.validate (str "s")
      { hostname := some (str "h"), username := some (str "u"), app_name := some (str "x") } =
      .ok { name := str "s", hostname := str "h", username := str "u", app_name := str "x" } ∧
    ServerConfig.validate (str "s")
      { hostname := some (str "h"), username := some (str "u"), app_name := some (str "x"),
        private_key_path := some (str "/k"), password := some (str "p") } =
      .ok { name := str "s", hostname := str "h", username := str "u", app_name := str "x",
            private_key_path := some (str "/k"), password := some (str "p") } := by
  exact ⟨rfl, rfl⟩

/-- **C8 amended.** Construction validates only the presence of the
required fields and passes both credential fields through unchecked
(zero- and two-credential profiles are constructible — the repository's
own test constructs a zero-credential one); the only credential check is
at connect time, where zero truthy credentials raise `ValueError` and,
when both are set, the private key silently takes precedence. -/
theorem C8_credentials_checked_at_connect (name : List Char) (d : RawServerData)
    (hh : d.hostname.isSome = true) (hu : d.username.isSome = true)
    (ha : d.app_name.isSome = true) :
    (∃ sc, ServerConfig.validate name d = .ok sc ∧
      sc.private_key_path = d.private_key_path ∧ sc.password = d.password) ∧
    (∀ sc : ServerConfig, pyTruthyStr sc.private_key_path = false →
      pyTruthyStr sc.password = false →
      chooseAuth sc = .error (.valueError
        (str "Either private_key_path or password must be provided"))) ∧
    (∀ sc : ServerConfig, pyTruthyStr sc.private_key_path = true →
      chooseAuth sc = .ok (.key (sc.private_key_path.getD []))) := by
  refine ⟨?_, ?_, ?_⟩
  · obtain ⟨h, hh'⟩ := Option.isSome_iff_exists.mp hh
    obtain ⟨u, hu'⟩ := Option.isSome_iff_exists.mp hu
    obtain ⟨a, ha'⟩ := Option.isSome_iff_exists.mp ha
    refine ⟨{ name := name, hostname := h, port := d.port.getD 22, username := u,
              private_key_path := d.private_key_path, password := d.password,
              app_name := a, log_paths := d.log_paths, timeout := d.timeout.getD 30 },
      ?_, rfl, rfl⟩
    unfold ServerConfig.validate
    rw [hh', hu', ha']
  · intro sc h1 h2
    unfold chooseAuth
    rw [h1, h2]
    rfl
  · intro sc h1
    unfold chooseAuth
    rw [h1]
    rfl

/-- Witness for the amended C8: a zero-credential profile is constructed,
its connect attempt raises `ValueError`, and a two-credential profile
authenticates by key. -/
theorem C8_credentials_checked_at_connect_witness :
    (∃ sc, ServerConfig.validate (str "s")
      { hostname := some (str "h"), username := some (str "u"),
        app_name := some (str "x") } = .ok sc ∧
      sc.private_key_path = none ∧ sc.password = none) ∧
    chooseAuth { name := str "s", hostname := str "h", username := str "u",
                 app_name := str "x" } =
      .error (.valueError (str "Either private_key_path or password must be provided")) ∧
    chooseAuth { name := str "s", hostname := str "h", username := str "u",
                 app_name := str "x", private_key_path := some (str "/k"),
                 password := some (str "p") } = .ok (.key (str "/k")) := by
  have h := C8_credentials_checked_at_connect (str "s")
    { hostname := some (str "h"), username := some (str "u"), app_name := some (str "x") }
    rfl rfl rfl
  refine ⟨h.1, h.2.1 _ (by decide) (by decide), ?_⟩
  exact (h.2.2 _ (by decide)).trans (by decide)

/-! ## Claim C9: secrets in the `server://<name>` resource -/

set_option maxRecDepth 8000 in
/-- **C9 counterexample.** Reading `server://a` for a host whose password
is `"hunter2"` returns output that *contains* the plaintext password, and
changing only the password changes the output — the resource is neither
secret-free nor independent of the secret fields. -/
theorem C9_secret_leak_counterexample :
    (∃ out, read_resource ⟨some { servers := [(str "a", c9cfgA)] }, .absent⟩
        (str "server://a") = .ok out ∧ containsSeq (str "hunter2") out = true) ∧
    read_resource ⟨some { servers := [(str "a", c9cfgA)] }, .absent⟩ (str "server://a") ≠
      read_resource ⟨some { servers := [(str "a", c9cfgB)] }, .absent⟩ (str "server://a") := by
  refine ⟨⟨model_dump_json c9cfgA, by decide, by decide⟩, by decide⟩

/-- **C9 amended.** `read_resource` answers `server://<name>` with the
*complete* model dump of the profile — all declared fields, the secret
ones included: whenever the profile has a password, the response
decomposes around that password's JSON string literal. -/
theorem C9_resource_is_full_dump (st : MgrState) (name : List Char) (sc : ServerConfig)
    (hsrv : get_server st name = .ok sc) :
    read_resource st (str "server://" ++ name) = .ok (model_dump_json sc) ∧
    ∀ p, sc.password = some p →
      ∃ A B, model_dump_json sc = A ++ jsonStr p ++ B := by
  constructor
  · have hlen : (str "server://").length = 9 := rfl
    have htake : (str "server://" ++ name).take 9 = str "server://" := by
      rw [← hlen, List.take_left]
    have hdrop : (str "server://" ++ name).drop 9 = name := by
      rw [← hlen, List.drop_left]
    unfold read_resource
    rw [if_pos htake, hdrop]
    simp only [hsrv]
  · intro p hp
    refine ⟨[lbr, nl] ++
      str "  " ++ jsonStr (str "name") ++ str ": " ++ jsonStr sc.name ++ [',', nl] ++
      str "  " ++ jsonStr (str "hostname") ++ str ": " ++ jsonStr sc.hostname ++ [',', nl] ++
      str "  " ++ jsonStr (str "port") ++ str ": " ++ natRepr sc.port ++ [',', nl] ++
      str "  " ++ jsonStr (str "username") ++ str ": " ++ jsonStr sc.username ++ [',', nl] ++
      str "  " ++ jsonStr (str "private_key_path") ++ str ": " ++
        jsonOptStr sc.private_key_path ++ [',', nl] ++
      str "  " ++ jsonStr (str "password") ++ str ": ",
      [',', nl] ++
      str "  " ++ jsonStr (str "app_name") ++ str ": " ++ jsonStr sc.app_name ++ [',', nl] ++
      str "  " ++ jsonStr (str "log_paths") ++ str ": " ++
        (match sc.log_paths with
         | none => str "null"
         | some l => jsonArr l) ++ [',', nl] ++
      str "  " ++ jsonStr (str "timeout") ++ str ": " ++ natRepr sc.timeout ++
      [nl, rbr], ?_⟩
    unfold model_dump_json
    rw [hp]
    simp [jsonOptStr, List.append_assoc]

/-- Witness for the amended C9 at the concrete `"hunter2"` profile. -/
theorem C9_resource_is_full_dump_witness :
    read_resource ⟨some { servers := [(str "a", c9cfgA)] }, .absent⟩
      (str "server://" ++ str "a") = .ok (model_dump_json c9cfgA) ∧
    ∃ A B, model_dump_json c9cfgA = A ++ jsonStr (str "hunter2") ++ B := by
  have h := C9_resource_is_full_dump
    ⟨some { servers := [(str "a", c9cfgA)] }, .absent⟩ (str "a") c9cfgA rfl
  exact ⟨h.1, h.2 (str "hunter2") rfl⟩

/-! ## Claim C10: per-host serialization of concurrent acquisition -/

/-- **C10 counterexample.** `SSHConnectionManager` holds no lock: under
the schedule that interleaves two same-host `connect` callers across the
`await asyncssh.connect` suspension, *both* callers pass the cache check,
both create live sessions (`created = [1, 2]`), and the second store
overwrites the first record, which leaks unclosed — two live
authenticated sessions for one host name existed at once. -/
theorem C10_same_host_race_counterexample :
    (runSched (some { id := 1 }) (some { id := 2 }) c10cfg c10cfg
        [true, false, true, false] {}).s.created = [1, 2] ∧
    (runSched (some { id := 1 }) (some { id := 2 }) c10cfg c10cfg
        [true, false, true, false] {}).pc1 = .done (.ok { id := 1 }) ∧
    (runSched (some { id := 1 }) (some { id := 2 }) c10cfg c10cfg
        [true, false, true, false] {}).pc2 = .done (.ok { id := 2 }) ∧
    (runSched (some { id := 1 }) (some { id := 2 }) c10cfg c10cfg
        [true, false, true, false] {}).s.table = [(str "a", { id := 2 })] := by
  decide

/-- **C10 amended.** Same-host acquisition is serialized only by accident
of scheduling: when the two callers do not interleave, the second reuses
the first's record and a single session is created; when they interleave
across the connect suspension both create sessions (see the
counterexample).  Different-host callers indeed proceed independently —
there is no lock of any kind — both storing their own record. -/
theorem C10_schedule_dependent_serialization :
    (runSched (some { id := 1 }) (some { id := 2 }) c10cfg c10cfg
        [true, true, false] {}).s.created = [1] ∧
    (runSched (some { id := 1 }) (some { id := 2 }) c10cfg c10cfg
        [true, true, false] {}).pc2 = .done (.ok { id := 1 }) ∧
    (runSched (some { id := 1 }) (some { id := 2 }) c10cfg c10cfgB
        [true, false, true, false] {}).s.table =
      [(str "a", { id := 1 }), (str "b", { id := 2 })] ∧
    (runSched (some { id := 1 }) (some { id := 2 }) c10cfg c10cfgB
        [true, false, true, false] {}).s.created = [1, 2] := by
  decide

end LogSearchMCP
